import Mathlib

/-!
# Verification of the growth-metrics computations of `data_management`

This file gives a shallow embedding of the computational cores of the
analysis scripts under `reference/python/` — the period-over-period /
CAGR growth-metrics computations that the specification singles out —
and proves or refutes the specification's claims about them.

Numeric cell values of the datasets are modelled as rationals (the data
are decimal numbers read from CSV/JSON); the CAGR formula itself lives in
`ℝ` because it takes a fractional power (`Real.rpow`), exactly as the
Python `**` operator does over floats.  Chart rendering, file I/O and
report-text formatting are out of scope, as the specification states.
-/

/-- The CAGR expression that recurs verbatim in
`fixed_visualization.py` (line 187), `english_visualization.py` (line 187),
`thesis_key_findings.py` (lines 45, 49) and `comprehensive_analysis.py`
(line 167):
`((end_value / start_value) ** (1 / years) - 1) * 100`.
The scripts differ only in what `years` is bound to. -/
noncomputable def cagr (startValue endValue : ℚ) (years : ℕ) : ℝ :=
  (((endValue : ℝ) / (startValue : ℝ)) ^ ((1 : ℝ) / (years : ℝ)) - 1) * 100

/-- Python's `round(x, 2)` as used on the CAGR values in
`thesis_key_findings.py` (lines 54-55) and `comprehensive_analysis.py`
(line 168).  (Python rounds ties to even while `round` here rounds ties
up; the two differ only at exact half-hundredths, which never arise in
the claims below.) -/
noncomputable def round2 (x : ℝ) : ℝ := ((round (x * 100) : ℤ) : ℝ) / 100

/-- A record of the unified dataset
`data/processed/unified_retail_dataset.json` as loaded by
`thesis_key_findings.py`, `comprehensive_analysis.py`,
`fixed_visualization.py`, `english_visualization.py` and
`create_presentation_figures.py`: one city-year observation.
(`sales` / `salesArea` columns are not consumed by any computation a
claim is about and are left out of the model.) -/
structure URow where
  cityName : String
  region : Option String
  year : ℤ
  establishments : ℚ
  employees : ℚ
deriving DecidableEq, Repr

/-- `sort_values('year')`: stable insertion of a row into a year-sorted list. -/
def insertByYear (r : URow) : List URow → List URow
  | [] => [r]
  | s :: rest => if r.year ≤ s.year then r :: s :: rest else s :: insertByYear r rest

/-- `df.sort_values('year')` (insertion sort; the observed years of one
city are distinct, so stability questions do not arise). -/
def sortByYear : List URow → List URow
  | [] => []
  | r :: rest => insertByYear r (sortByYear rest)

/-- `df[df['cityName'] == city].sort_values('year')` — the per-city
time-series frame built at `thesis_key_findings.py` line 37 and
`comprehensive_analysis.py` line 157. -/
def cityRows (df : List URow) (city : String) : List URow :=
  sortByYear (df.filter (fun r => r.cityName == city))

namespace Thesis

/-- One value of the `city_growth` mapping built by
`identify_top_growth_cities` (`thesis_key_findings.py` lines 53-61). -/
structure CityGrowth where
  establishments_cagr : ℝ
  employees_cagr : ℝ
  initial_establishments : ℚ
  final_establishments : ℚ
  initial_employees : ℚ
  final_employees : ℚ
  data_points : ℕ

/-- The body of the per-city loop of `identify_top_growth_cities`
(`thesis_key_findings.py` lines 36-61): `none` when the city contributes
no entry to `city_growth`, `some` with the entry otherwise.

```
city_data = self.df[self.df['cityName'] == city].sort_values('year')
if len(city_data) >= 3:
    establishments = city_data['establishments'].values
    employees = city_data['employees'].values
    years = len(establishments) - 1
    if establishments[0] > 0 and establishments[-1] > 0:
        est_cagr = ((establishments[-1] / establishments[0]) ** (1/years) - 1) * 100
        if employees[0] > 0 and employees[-1] > 0:
            emp_cagr = ((employees[-1] / employees[0]) ** (1/years) - 1) * 100
        else:
            emp_cagr = 0
        city_growth[city] = { 'establishments_cagr': round(est_cagr, 2), ... }
```
-/
noncomputable def cityGrowthEntry (df : List URow) (city : String) : Option CityGrowth :=
  let city_data := cityRows df city
  if city_data.length ≥ 3 then
    let establishments := city_data.map (·.establishments)
    let employees := city_data.map (·.employees)
    let years := establishments.length - 1
    match establishments.head?, establishments.getLast?,
          employees.head?, employees.getLast? with
    | some e0, some eN, some p0, some pN =>
      if e0 > 0 ∧ eN > 0 then
        let est_cagr := cagr e0 eN years
        let emp_cagr := if p0 > 0 ∧ pN > 0 then cagr p0 pN years else 0
        some { establishments_cagr := round2 est_cagr
               employees_cagr := round2 emp_cagr
               initial_establishments := e0
               final_establishments := eN
               initial_employees := p0
               final_employees := pN
               data_points := city_data.length }
      else none
    | _, _, _, _ => none
  else none

end Thesis

namespace Comprehensive

/-- The per-column CAGR entry of `time_series_analysis`
(`comprehensive_analysis.py` lines 161-168): the value stored under the
`'{col}_cagr'` key of `city_trends`, or `none` when the key is not added.

```
values = city_data[col].values
if len(values) > 1:
    years = len(values) - 1
    if values[0] > 0 and values[-1] > 0:
        cagr = ((values[-1] / values[0]) ** (1/years) - 1) * 100
        city_trends[f'{col}_cagr'] = round(cagr, 2)
```
(The `'{col}_trend_slope'` / `'{col}_trend_r2'` keys computed by
`scipy.stats.linregress` at lines 170-174 are library calls outside
every claim and are not modelled.) -/
noncomputable def colCagr (values : List ℚ) : Option ℝ :=
  if values.length > 1 then
    let years := values.length - 1
    match values.head?, values.getLast? with
    | some v0, some vN =>
      if v0 > 0 ∧ vN > 0 then some (round2 (cagr v0 vN years)) else none
    | _, _ => none
  else none

/-- The body of the per-city loop of `time_series_analysis`
(`comprehensive_analysis.py` lines 155-176): `none` when the city gets no
`city_timeseries` entry, otherwise the pair of optional
`establishments_cagr` / `employees_cagr` values of its `city_trends`. -/
noncomputable def cityTimeseriesEntry (df : List URow) (city : String) :
    Option (Option ℝ × Option ℝ) :=
  let city_data := cityRows df city
  if city_data.length ≥ 3 then
    some (colCagr (city_data.map (·.establishments)),
          colCagr (city_data.map (·.employees)))
  else none

end Comprehensive

namespace FixedVis

/-- The body of the per-city loop of `create_growth_comparison`
(`fixed_visualization.py` lines 172-194) and of
`create_growth_rate_comparison` (`english_visualization.py` lines
173-194): `none` when the city contributes no row to `growth_data`,
otherwise the `(est_cagr * 100, emp_cagr * 100)` pair.

```
data_2007 = city_data[city_data['year'] == 2007]
data_2021 = city_data[city_data['year'] == 2021]
if len(data_2007) > 0 and len(data_2021) > 0:
    est_2007 = data_2007['establishments'].iloc[0]
    ...
    years = 14  # 2007-2021
    est_cagr = (est_2021 / est_2007) ** (1/years) - 1
    emp_cagr = (emp_2021 / emp_2007) ** (1/years) - 1
    growth_data.append({'city': ..., 'est_cagr': est_cagr * 100, 'emp_cagr': emp_cagr * 100})
```
-/
noncomputable def growthEntry (df : List URow) (city : String) : Option (ℝ × ℝ) :=
  let city_data := df.filter (fun r => r.cityName == city)
  match (city_data.filter (fun r => r.year == 2007)).head?,
        (city_data.filter (fun r => r.year == 2021)).head? with
  | some d07, some d21 =>
    let years : ℕ := 14
    some (cagr d07.establishments d21.establishments years,
          cagr d07.employees d21.employees years)
  | _, _ => none

end FixedVis

namespace PresentationFigures

/-- `df_filtered = df[df['year'] != 2014]` — the hard-coded 2014
exclusion applied at `create_presentation_figures.py` line 93
(`create_time_series_chart`), line 133 (`create_regional_comparison`)
and line 215 (`create_statistics_summary`). -/
def filtered2014 (df : List URow) : List URow :=
  df.filter (fun r => r.year != 2014)

/-- Mean of a column, `pandas` `'mean'` aggregation over a group. -/
def meanQ (xs : List ℚ) : ℚ := xs.sum / (xs.length : ℚ)

/-- The distinct year keys of a `groupby('year')` (key order is
immaterial to the claims, so `pandas`' sorting of the keys is not
modelled). -/
def yearKeys (rows : List URow) : List ℤ := (rows.map (·.year)).dedup

/-- `yearly_avg` of `create_time_series_chart`
(`create_presentation_figures.py` lines 93-98):
`df[df['year'] != 2014].groupby('year').agg({'establishments': 'mean', 'employees': 'mean'})`,
as the list of `(year, mean establishments, mean employees)` triples. -/
def yearly_avg (df : List URow) : List (ℤ × ℚ × ℚ) :=
  (yearKeys (filtered2014 df)).map (fun y =>
    let g := (filtered2014 df).filter (fun r => r.year == y)
    (y, meanQ (g.map (·.establishments)), meanQ (g.map (·.employees))))

/-- `df_filtered` of `create_regional_comparison`
(`create_presentation_figures.py` lines 133-134): the rows the regional
box plots are drawn from —
`df[df['year'] != 2014]` further restricted to `region.notna()`. -/
def regionalRows (df : List URow) : List URow :=
  (filtered2014 df).filter (fun r => r.region.isSome)

/-- The rows `create_statistics_summary`
(`create_presentation_figures.py` lines 215-217) feeds to
`describe()`: `df[df['year'] != 2014]`. -/
def statsRows (df : List URow) : List URow := filtered2014 df

/-- The mean row of the `describe()` summary of
`create_statistics_summary`: mean establishments and mean employees over
the 2014-filtered rows. -/
def statsSummaryMean (df : List URow) : ℚ × ℚ :=
  (meanQ ((statsRows df).map (·.establishments)),
   meanQ ((statsRows df).map (·.employees)))

end PresentationFigures

namespace Analysis

/-- The four metric columns iterated by
`create_period_comparison_table` (`analysis.py` line 60). -/
inductive Metric
  | establishments
  | employees
  | sales
  | salesArea
deriving DecidableEq, Repr

/-- A row of `data/for_python/retail_data_with_ratios.csv` as loaded by
`analysis.py`.  All four metric columns of that CSV are populated
numeric columns.  `extraCols` holds columns a script adds to the frame
after loading (none at load time). -/
structure Rec where
  city : String
  year : ℤ
  establishments : ℚ
  employees : ℚ
  sales : ℚ
  salesArea : ℚ
  extraCols : List (String × String)
deriving DecidableEq, Repr

/-- Column access `row[metric]`. -/
def Rec.get (r : Rec) : Metric → ℚ
  | .establishments => r.establishments
  | .employees => r.employees
  | .sales => r.sales
  | .salesArea => r.salesArea

/-- `metrics = ['establishments', 'employees', 'sales', 'salesArea']`
(`analysis.py` line 60). -/
def metricsList : List Metric :=
  [.establishments, .employees, .sales, .salesArea]

/-- Pandas column assignment `df[k] = v`: replaces the column when it
exists, appends it otherwise. -/
def setCol (cols : List (String × String)) (k v : String) : List (String × String) :=
  if cols.any (fun p => p.1 == k) then
    cols.map (fun p => if p.1 == k then (k, v) else p)
  else cols ++ [(k, v)]

/-- The period label
`'2007-2012' if x <= 2012 else '2012-2021'` (`analysis.py` lines 39-41). -/
def periodLabel (year : ℤ) : String :=
  if year ≤ 2012 then "2007-2012" else "2012-2021"

/-- `df['period'] = df['year'].apply(...)` (`analysis.py` lines 39-41):
the dataframe mutation performed by `create_period_comparison_table` on
its input. -/
def addPeriodColumn (df : List Rec) : List Rec :=
  df.map (fun r => { r with extraCols := setCol r.extraCols "period" (periodLabel r.year) })

/-- One value of the inner `period_change[metric]` dict
(`analysis.py` lines 67-72); the keys are `'start'`, `'end'`,
`'change_pct'`, `'change_abs'`. -/
structure MetricChange where
  start_val : ℚ
  end_val : ℚ
  change_pct : ℚ
  change_abs : ℚ
deriving DecidableEq, Repr

/-- The per-metric computation of `create_period_comparison_table`
(`analysis.py` lines 62-72):

```
start_val = float(start_data[metric].iloc[0])
end_val = float(end_data[metric].iloc[0])
change_pct = ((end_val - start_val) / start_val) * 100
```

The division is unconditional; `start_val` and `end_val` are plain
Python floats, so `start_val == 0` raises `ZeroDivisionError`, modelled
as the `Except.error`. -/
def metricChange (startRow endRow : Rec) (m : Metric) : Except String MetricChange :=
  let start_val := startRow.get m
  let end_val := endRow.get m
  if start_val = 0 then .error "ZeroDivisionError"
  else .ok { start_val := start_val
             end_val := end_val
             change_pct := (end_val - start_val) / start_val * 100
             change_abs := end_val - start_val }

/-- The per-period body of `create_period_comparison_table`
(`analysis.py` lines 50-74): select the boundary rows of the period,
and when both exist (`if len(start_data) > 0 and len(end_data) > 0`)
compute the four metric changes; `.ok none` is the silently-skipped
combination, and a raised `ZeroDivisionError` propagates. -/
def cityPeriod (df : List Rec) (city : String) (yStart yEnd : ℤ) :
    Except String (Option (List (Metric × MetricChange))) :=
  let city_data := df.filter (fun r => r.city == city)
  let start_data := city_data.filter (fun r => r.year == yStart)
  let end_data := city_data.filter (fun r => r.year == yEnd)
  match start_data.head?, end_data.head? with
  | some s, some e =>
    (metricsList.mapM (fun m => (metricChange s e m).map (fun c => (m, c)))).map some
  | _, _ => .ok none

/-- The `city_stats` dict for one city (`analysis.py` lines 46-74):
the two hard-coded periods `2007-2012` (years 2007 → 2012) and
`2012-2021` (years 2012 → 2021), in loop order. -/
def cityStats (df : List Rec) (city : String) :
    Except String (List (String × List (Metric × MetricChange))) :=
  (cityPeriod df city 2007 2012).bind (fun p1 =>
    (cityPeriod df city 2012 2021).map (fun p2 =>
      (match p1 with | some l => [("2007-2012", l)] | none => []) ++
      (match p2 with | some l => [("2012-2021", l)] | none => [])))

/-- The `period_stats` mapping `city → period → metric → change`
(`analysis.py` lines 44-76). -/
def periodStats (df : List Rec) :
    Except String (List (String × List (String × List (Metric × MetricChange)))) :=
  ((df.map (·.city)).dedup).mapM (fun c => (cityStats df c).map (fun s => (c, s)))

/-- `create_period_comparison_table` (`analysis.py` lines 34-96),
restricted to its computation: the state of the input dataframe after
the call (the `period` column assignment at lines 39-41 mutates it in
place) paired with the computed `period_stats`.  The JSON/Markdown
serialization at lines 78-94 is out of scope. -/
def create_period_comparison_table (df : List Rec) :
    List Rec × Except String (List (String × List (String × List (Metric × MetricChange)))) :=
  (addPeriodColumn df, periodStats df)

end Analysis

namespace GrowthMetrics

/-- Modelled from the spec: the error taxonomy of §7 — `MissingDataError`
"carrying the missing `(city, year)` key" and `InvalidRangeError` for a
"non-increasing year pair".  No error class exists anywhere under
`reference/python/`; the scripts only inline silent `if len(...) > 0`
skips, so the taxonomy is modelled from the spec's words. -/
inductive GrowthError
  | missingData (city : String) (year : ℤ)
  | invalidRange (yStart yEnd : ℤ)
deriving DecidableEq, Repr

/-- Modelled from the spec: an `Observation` of §3 — one
`(city, year, metric→value)` record, metric values being explicit nulls
when missing. -/
structure Obs where
  city : String
  year : ℤ
  metrics : List (String × Option ℚ)
deriving DecidableEq, Repr

/-- Modelled from the spec: a `GrowthResult` of §3.  `percent_change`
and `cagr` are optional because the spec omits them (`none`) when their
preconditions fail. -/
structure GrowthResult where
  start_value : ℚ
  end_value : ℚ
  absolute_change : ℚ
  percent_change : Option ℚ
  cagr : Option ℝ

/-- The value of `metric` recorded for `(city, year)`: `none` when the
Observation is missing, the metric name is absent, or its value is an
explicit null. -/
def lookupValue (dataset : List Obs) (city : String) (year : ℤ) (metric : String) :
    Option ℚ :=
  match dataset.find? (fun o => o.city == city && o.year == year) with
  | none => none
  | some o =>
    match o.metrics.lookup metric with
    | none => none
    | some v => v

/-- Modelled from the spec: `compute_period_change(dataset, city,
metric, y_start, y_end)` of §4.1 — no implementation exists under
`reference/python/`, only inlined per-script variants.  A non-increasing
year pair fails with `InvalidRangeError`; a missing endpoint observation
fails with `MissingDataError` carrying the missing key; otherwise the
`GrowthResult` of §3 is produced, with `percent_change` omitted when
`start_value == 0` and `cagr` omitted unless both values are positive. -/
noncomputable def compute_period_change (dataset : List Obs) (city metric : String)
    (yStart yEnd : ℤ) : Except GrowthError GrowthResult :=
  if yStart < yEnd then
    match lookupValue dataset city yStart metric with
    | none => .error (.missingData city yStart)
    | some s =>
      match lookupValue dataset city yEnd metric with
      | none => .error (.missingData city yEnd)
      | some e =>
        .ok { start_value := s
              end_value := e
              absolute_change := e - s
              percent_change := if s = 0 then none else some ((e - s) / s * 100)
              cagr := if 0 < s ∧ 0 < e then some (cagr s e (yEnd - yStart).toNat) else none }
  else .error (.invalidRange yStart yEnd)

/-- The cities of a dataset, in first-appearance order. -/
def cities (dataset : List Obs) : List String := (dataset.map (·.city)).dedup

/-- Every `(city, metric, period)` combination `compute_all_periods`
visits. -/
def combos (dataset : List Obs) (metrics : List String) (periods : List (ℤ × ℤ)) :
    List (String × String × ℤ × ℤ) :=
  (cities dataset).flatMap (fun c =>
    metrics.flatMap (fun m => periods.map (fun p => (c, m, p.1, p.2))))

/-- Does this combination fail with a `MissingDataError`? -/
noncomputable def isMissing (dataset : List Obs) (q : String × String × ℤ × ℤ) : Bool :=
  match compute_period_change dataset q.1 q.2.1 q.2.2.1 q.2.2.2 with
  | .error (.missingData _ _) => true
  | _ => false

/-- Modelled from the spec: `compute_all_periods(dataset, metrics,
period_boundaries)` of §4.1 — for every `(city, metric, period)`
combination invoke `compute_period_change`; combinations failing with
`MissingDataError` are absent from the result mapping and tallied in the
returned skipped-combination count.  (Per §4.1/§7 the period boundaries
are strictly increasing pairs — `InvalidRangeError` is a caller
programming error, not a skip.) -/
noncomputable def compute_all_periods (dataset : List Obs) (metrics : List String)
    (periods : List (ℤ × ℤ)) :
    List ((String × String × ℤ × ℤ) × GrowthResult) × ℕ :=
  let rs := (combos dataset metrics periods).map
    (fun q => (q, compute_period_change dataset q.1 q.2.1 q.2.2.1 q.2.2.2))
  (rs.filterMap (fun qr => match qr.2 with
    | .ok g => some (qr.1, g)
    | .error _ => none),
   ((combos dataset metrics periods).filter (isMissing dataset)).length)

end GrowthMetrics

/-! ## Concrete example datasets -/

/-- A city observed at the four dataset years 2007/2012/2014/2021 (so 4
data points spanning 14 years), establishments growing 100 → 800. -/
def dfC1 : List URow :=
  [⟨"A", some "R", 2007, 100, 10⟩, ⟨"A", some "R", 2012, 110, 20⟩,
   ⟨"A", some "R", 2014, 120, 30⟩, ⟨"A", some "R", 2021, 800, 40⟩]

/-- The `city_growth` entry `identify_top_growth_cities` produces for
city `"A"` of `dfC1`. -/
noncomputable def gC1 : Thesis.CityGrowth :=
  { establishments_cagr := round2 (cagr 100 800 3)
    employees_cagr := round2 (cagr 10 40 3)
    initial_establishments := 100
    final_establishments := 800
    initial_employees := 10
    final_employees := 40
    data_points := 4 }

/-- A city with three observations whose first employee count is zero
(establishment counts all positive). -/
def dfC4 : List URow :=
  [⟨"A", some "R", 2007, 100, 0⟩, ⟨"A", some "R", 2012, 150, 50⟩,
   ⟨"A", some "R", 2021, 200, 100⟩]

/-- The `city_growth` entry `identify_top_growth_cities` produces for
city `"A"` of `dfC4`: the employees guard fails, so `emp_cagr = 0`. -/
noncomputable def gC4 : Thesis.CityGrowth :=
  { establishments_cagr := round2 (cagr 100 200 2)
    employees_cagr := round2 0
    initial_establishments := 100
    final_establishments := 200
    initial_employees := 0
    final_employees := 100
    data_points := 3 }

/-- A city observed only at the two endpoint years 2007 and 2021. -/
def dfC10 : List URow :=
  [⟨"X", none, 2007, 100, 10⟩, ⟨"X", none, 2021, 200, 20⟩]

/-- An `analysis.py` dataset whose 2007 establishments value is zero. -/
def dfZ : List Analysis.Rec :=
  [⟨"B", 2007, 0, 10, 10, 10, []⟩, ⟨"B", 2012, 200, 20, 20, 20, []⟩]

/-- A one-row `analysis.py` dataset with no extra columns. -/
def dfOne : List Analysis.Rec := [⟨"B", 2007, 1, 1, 1, 1, []⟩]

/-- A dataset with one 2012 row and one (outlier-valued) 2014 row. -/
def df9 : List URow :=
  [⟨"P", some "R", 2012, 10, 20⟩, ⟨"P", some "R", 2014, 999, 999⟩]

/-- A spec-model dataset: city `"A"` observed at 2007 and 2012, city
`"C"` observed at 2007 only (year 2012 missing). -/
def obsD : List GrowthMetrics.Obs :=
  [⟨"A", 2007, [("establishments", some 100)]⟩,
   ⟨"A", 2012, [("establishments", some 150)]⟩,
   ⟨"C", 2007, [("establishments", some 50)]⟩]

/-! ## Helper lemmas -/

lemma round2_zero : round2 0 = 0 := by
  simp [round2]

lemma round2_hundred : round2 100 = 100 := by
  have h : ((100 : ℝ) * 100) = ((10000 : ℤ) : ℝ) := by norm_num
  rw [round2, h, round_intCast]
  norm_num

lemma eight_rpow_third : (8 : ℝ) ^ ((1 : ℝ) / 3) = 2 := by
  have h8 : (8 : ℝ) = (2 : ℝ) ^ ((3 : ℕ) : ℝ) := by
    rw [Real.rpow_natCast]; norm_num
  rw [h8, ← Real.rpow_mul (by norm_num : (0 : ℝ) ≤ 2)]
  norm_num

lemma eight_rpow_fourteenth_lt_two : (8 : ℝ) ^ ((1 : ℝ) / 14) < 2 := by
  have h8 : (8 : ℝ) = (2 : ℝ) ^ ((3 : ℕ) : ℝ) := by
    rw [Real.rpow_natCast]; norm_num
  rw [h8, ← Real.rpow_mul (by norm_num : (0 : ℝ) ≤ 2)]
  calc (2 : ℝ) ^ (((3 : ℕ) : ℝ) * ((1 : ℝ) / 14)) < 2 ^ (1 : ℝ) := by
        rw [Real.rpow_lt_rpow_left_iff (by norm_num : (1 : ℝ) < 2)]
        norm_num
    _ = 2 := Real.rpow_one 2

lemma cagr_100_800_3 : cagr 100 800 3 = 100 := by
  have h : ((800 : ℚ) : ℝ) / ((100 : ℚ) : ℝ) = (8 : ℝ) := by norm_num
  rw [cagr, h]
  rw [show ((3 : ℕ) : ℝ) = (3 : ℝ) by norm_num]
  rw [eight_rpow_third]
  norm_num

lemma cagr_100_800_14_lt : cagr 100 800 (2021 - 2007) < 100 := by
  have h : ((800 : ℚ) : ℝ) / ((100 : ℚ) : ℝ) = (8 : ℝ) := by norm_num
  rw [show (2021 - 2007 : ℕ) = 14 from rfl, cagr, h]
  rw [show ((14 : ℕ) : ℝ) = (14 : ℝ) by norm_num]
  nlinarith [eight_rpow_fourteenth_lt_two]

/-- The compounding identity of the CAGR expression: over the same
number of years that appears in the exponent, it reproduces the end
value exactly. -/
lemma cagr_roundtrip (s e : ℚ) (n : ℕ) (hs : 0 < s) (he : 0 < e) (hn : n ≠ 0) :
    (s : ℝ) * (1 + cagr s e n / 100) ^ n = (e : ℝ) := by
  have hsR : (0 : ℝ) < (s : ℝ) := by exact_mod_cast hs
  have heR : (0 : ℝ) < (e : ℝ) := by exact_mod_cast he
  have hnR : ((n : ℕ) : ℝ) ≠ 0 := Nat.cast_ne_zero.mpr hn
  have h1 : 1 + cagr s e n / 100 = ((e : ℝ) / (s : ℝ)) ^ ((1 : ℝ) / (n : ℝ)) := by
    rw [cagr]; ring
  rw [h1, ← Real.rpow_natCast (((e : ℝ) / (s : ℝ)) ^ ((1 : ℝ) / (n : ℝ))) n,
    ← Real.rpow_mul (le_of_lt (div_pos heR hsR))]
  rw [show (1 : ℝ) / (n : ℝ) * (n : ℝ) = 1 by field_simp]
  rw [Real.rpow_one]
  field_simp

lemma dfC1_entry : Thesis.cityGrowthEntry dfC1 "A" = some gC1 := rfl

lemma dfC4_entry : Thesis.cityGrowthEntry dfC4 "A" = some gC4 := rfl

lemma dfC10_entry : Thesis.cityGrowthEntry dfC10 "X" = none := rfl

/-- Inversion on a produced `city_growth` entry: its fields are exactly
what the loop body computes — `data_points` is the observation count,
both CAGRs are annualized over `data_points - 1`, the employees CAGR
degrades to `0` when its guard fails, and the establishments guard must
have held. -/
lemma Thesis.cityGrowthEntry_some {df : List URow} {city : String} {g : Thesis.CityGrowth}
    (h : Thesis.cityGrowthEntry df city = some g) :
    g.data_points = (cityRows df city).length ∧
    g.establishments_cagr =
      round2 (cagr g.initial_establishments g.final_establishments (g.data_points - 1)) ∧
    g.employees_cagr =
      round2 (if 0 < g.initial_employees ∧ 0 < g.final_employees then
        cagr g.initial_employees g.final_employees (g.data_points - 1) else 0) ∧
    (0 < g.initial_establishments ∧ 0 < g.final_establishments) := by
  unfold Thesis.cityGrowthEntry at h
  dsimp only at h
  split at h
  case isFalse => exact absurd h (by simp)
  split at h
  case h_2 => exact absurd h (by simp)
  case h_1 e0 eN p0 pN hE0 hEN hP0 hPN =>
    split at h
    case isFalse => exact absurd h (by simp)
    case isTrue hpos =>
      rw [Option.some.injEq] at h
      subst h
      refine ⟨rfl, ?_, ?_, by simpa [gt_iff_lt] using hpos⟩
      · simp [List.length_map]
      · simp [List.length_map, gt_iff_lt]

/-- Cities with fewer than 3 observations contribute no `city_growth`
entry, whatever their values. -/
lemma Thesis.cityGrowthEntry_short {df : List URow} {city : String}
    (h : (cityRows df city).length < 3) : Thesis.cityGrowthEntry df city = none := by
  unfold Thesis.cityGrowthEntry
  dsimp only
  rw [if_neg (by omega)]

/-- Cities with fewer than 3 observations contribute no
`city_timeseries` entry, whatever their values. -/
lemma Comprehensive.cityTimeseriesEntry_short {df : List URow} {city : String}
    (h : (cityRows df city).length < 3) :
    Comprehensive.cityTimeseriesEntry df city = none := by
  unfold Comprehensive.cityTimeseriesEntry
  dsimp only
  rw [if_neg (by omega)]

/-- What the `'{col}_cagr'` entry of `time_series_analysis` is, given
the endpoints of the column: present with the count-minus-one
annualization exactly when both endpoints are positive. -/
lemma Comprehensive.colCagr_spec {values : List ℚ} {v0 vN : ℚ}
    (h0 : values.head? = some v0) (hN : values.getLast? = some vN)
    (hlen : 1 < values.length) :
    Comprehensive.colCagr values =
      if 0 < v0 ∧ 0 < vN then some (round2 (cagr v0 vN (values.length - 1))) else none := by
  unfold Comprehensive.colCagr
  rw [if_pos hlen]
  dsimp only
  rw [h0, hN]

/-- What `create_growth_comparison` / `create_growth_rate_comparison`
append for a city whose 2007 and 2021 rows exist: the two CAGRs with the
hard-coded `years = 14` annualization. -/
lemma FixedVis.growthEntry_eq {df : List URow} {city : String} {d07 d21 : URow}
    (h07 : ((df.filter (fun r => r.cityName == city)).filter
      (fun r => r.year == 2007)).head? = some d07)
    (h21 : ((df.filter (fun r => r.cityName == city)).filter
      (fun r => r.year == 2021)).head? = some d21) :
    FixedVis.growthEntry df city =
      some (cagr d07.establishments d21.establishments 14,
            cagr d07.employees d21.employees 14) := by
  unfold FixedVis.growthEntry
  dsimp only
  rw [h07, h21]

lemma gC1_est_cagr : gC1.establishments_cagr = 100 := by
  show round2 (cagr 100 800 3) = 100
  rw [cagr_100_800_3, round2_hundred]

/-! ## Claims -/

/-- C1 (counterexample): the claim that every CAGR is computed with
annualization exponent `1 / (y_end - y_start)` fails on
`identify_top_growth_cities` (`thesis_key_findings.py` lines 41-45): for
a city observed at 2007, 2012, 2014 and 2021 with establishments
100 → 800, the script reports an establishments CAGR of exactly 100
(exponent `1/3` — one over the observation count minus one), while the
claimed formula `((800/100) ^ (1/(2021-2007)) - 1) * 100` is strictly
below 100. -/
theorem C1_counterexample :
    (Thesis.cityGrowthEntry dfC1 "A").map Thesis.CityGrowth.establishments_cagr =
      some 100 ∧
    cagr 100 800 (2021 - 2007) < 100 := by
  refine ⟨?_, cagr_100_800_14_lt⟩
  rw [dfC1_entry, Option.map_some', gC1_est_cagr]

/-- C1 (amended): the pairwise comparisons of `create_growth_comparison`
(`fixed_visualization.py`) and `create_growth_rate_comparison`
(`english_visualization.py`) do annualize with exponent
`1 / (y_end - y_start)` (`years = 14` for their hard-coded 2007 → 2021
window); the multi-observation analyses (`identify_top_growth_cities`,
`time_series_analysis`) instead use one over the observation count minus
one. -/
theorem C1_growth_exponent :
    (∀ (df : List URow) (city : String) (d07 d21 : URow),
      ((df.filter (fun r => r.cityName == city)).filter
        (fun r => r.year == 2007)).head? = some d07 →
      ((df.filter (fun r => r.cityName == city)).filter
        (fun r => r.year == 2021)).head? = some d21 →
      FixedVis.growthEntry df city =
        some (cagr d07.establishments d21.establishments (2021 - 2007),
              cagr d07.employees d21.employees (2021 - 2007))) ∧
    (∀ (df : List URow) (city : String) (g : Thesis.CityGrowth),
      Thesis.cityGrowthEntry df city = some g →
      g.establishments_cagr =
        round2 (cagr g.initial_establishments g.final_establishments (g.data_points - 1))) :=
  ⟨fun _ _ _ _ h07 h21 => FixedVis.growthEntry_eq h07 h21,
   fun _ _ _ h => (Thesis.cityGrowthEntry_some h).2.1⟩

/-- C1 witness: both parts of the amended claim evaluated on `dfC1`. -/
theorem C1_growth_exponent_witness :
    (((dfC1.filter (fun r => r.cityName == "A")).filter
        (fun r => r.year == 2007)).head? = some ⟨"A", some "R", 2007, 100, 10⟩ ∧
     ((dfC1.filter (fun r => r.cityName == "A")).filter
        (fun r => r.year == 2021)).head? = some ⟨"A", some "R", 2021, 800, 40⟩ ∧
     FixedVis.growthEntry dfC1 "A" =
       some (cagr 100 800 (2021 - 2007), cagr 10 40 (2021 - 2007))) ∧
    (Thesis.cityGrowthEntry dfC1 "A" = some gC1 ∧
     gC1.establishments_cagr =
       round2 (cagr gC1.initial_establishments gC1.final_establishments
         (gC1.data_points - 1))) :=
  ⟨⟨rfl, rfl,
    C1_growth_exponent.1 dfC1 "A" ⟨"A", some "R", 2007, 100, 10⟩
      ⟨"A", some "R", 2021, 800, 40⟩ rfl rfl⟩,
   ⟨dfC1_entry, C1_growth_exponent.2 dfC1 "A" gC1 dfC1_entry⟩⟩

/-- C2 (counterexample): the round-trip claim
`start_value * (1 + cagr/100) ^ (y_end - y_start) ≈ end_value` fails for
the CAGR reported by `identify_top_growth_cities`: for `dfC1`
(establishments 100 → 800 over 2007-2021) the reported CAGR of 100
compounds over the 14-year window to 1638400, not to the end value
800. -/
theorem C2_counterexample :
    (Thesis.cityGrowthEntry dfC1 "A").map (fun g =>
      ((g.initial_establishments : ℝ) *
        (1 + g.establishments_cagr / 100) ^ (2021 - 2007 : ℕ),
       (g.final_establishments : ℝ))) = some (1638400, 800) ∧
    (1638400 : ℝ) ≠ (800 : ℝ) := by
  constructor
  · rw [dfC1_entry, Option.map_some', gC1_est_cagr]
    norm_num [gC1]
  · norm_num

/-- C2 (amended): for the pairwise 2007 → 2021 comparison of
`create_growth_comparison` / `create_growth_rate_comparison`, whose
annualization window equals the span of the reference years, the
round-trip identity holds exactly (in real arithmetic): the reported
establishments CAGR compounded over `2021 - 2007` years reproduces the
end value whenever both endpoint values are positive. -/
theorem C2_roundtrip :
    ∀ (df : List URow) (city : String) (c : ℝ × ℝ) (d07 d21 : URow),
      ((df.filter (fun r => r.cityName == city)).filter
        (fun r => r.year == 2007)).head? = some d07 →
      ((df.filter (fun r => r.cityName == city)).filter
        (fun r => r.year == 2021)).head? = some d21 →
      FixedVis.growthEntry df city = some c →
      0 < d07.establishments → 0 < d21.establishments →
      (d07.establishments : ℝ) * (1 + c.1 / 100) ^ (2021 - 2007 : ℕ) =
        (d21.establishments : ℝ) := by
  intro df city c d07 d21 h07 h21 hc hs he
  rw [FixedVis.growthEntry_eq h07 h21, Option.some.injEq] at hc
  rw [← hc]
  exact cagr_roundtrip _ _ 14 hs he (by norm_num)

/-- C2 witness: the round-trip identity evaluated on `dfC1`. -/
theorem C2_roundtrip_witness :
    (0 : ℚ) < 100 ∧ (0 : ℚ) < 800 ∧
    ((100 : ℚ) : ℝ) *
      (1 + (cagr 100 800 14, cagr 10 40 14).1 / 100) ^ (2021 - 2007 : ℕ) =
      ((800 : ℚ) : ℝ) :=
  ⟨by norm_num, by norm_num,
   C2_roundtrip dfC1 "A" (cagr 100 800 14, cagr 10 40 14)
     ⟨"A", some "R", 2007, 100, 10⟩ ⟨"A", some "R", 2021, 800, 40⟩
     rfl rfl rfl (by decide) (by decide)⟩

/-- C4 (counterexample): the claim that `cagr` is omitted (never a
placeholder) whenever `start_value ≤ 0 or end_value ≤ 0` fails on
`identify_top_growth_cities` (`thesis_key_findings.py` lines 48-51): for
a city whose first employee count is 0, the entry still carries an
employees CAGR — the placeholder value 0. -/
theorem C4_counterexample :
    (Thesis.cityGrowthEntry dfC4 "A").map Thesis.CityGrowth.employees_cagr = some 0 ∧
    (Thesis.cityGrowthEntry dfC4 "A").map Thesis.CityGrowth.initial_employees = some 0 := by
  constructor
  · rw [dfC4_entry, Option.map_some',
      show gC4.employees_cagr = round2 0 from rfl, round2_zero]
  · rw [dfC4_entry]; rfl

/-- C4 (amended): `time_series_analysis`
(`comprehensive_analysis.py` lines 163-168) omits the `cagr` key exactly
when the endpoints are not both positive; `identify_top_growth_cities`
omits the whole city entry when the establishments endpoints are not
both positive, but reports the employees CAGR as the placeholder 0 — not
omitted — when the employees endpoints are not both positive. -/
theorem C4_cagr_omission :
    (∀ (values : List ℚ) (v0 vN : ℚ),
      values.head? = some v0 → values.getLast? = some vN → 1 < values.length →
      (Comprehensive.colCagr values = none ↔ ¬(0 < v0 ∧ 0 < vN))) ∧
    (∀ (df : List URow) (city : String) (g : Thesis.CityGrowth),
      Thesis.cityGrowthEntry df city = some g →
      (0 < g.initial_establishments ∧ 0 < g.final_establishments) ∧
      (¬(0 < g.initial_employees ∧ 0 < g.final_employees) → g.employees_cagr = 0)) := by
  constructor
  · intro values v0 vN h0 hN hlen
    rw [Comprehensive.colCagr_spec h0 hN hlen]
    by_cases hc : 0 < v0 ∧ 0 < vN
    · simp [hc]
    · simp [hc]
  · intro df city g h
    obtain ⟨_, _, hemp, hpos⟩ := Thesis.cityGrowthEntry_some h
    refine ⟨hpos, fun hneg => ?_⟩
    rw [hemp, if_neg hneg, round2_zero]

/-- C4 witness: the omission rule evaluated on the column `[0, 50]` and
the placeholder behaviour on `dfC4`. -/
theorem C4_cagr_omission_witness :
    (([0, 50] : List ℚ).head? = some 0 ∧ ([0, 50] : List ℚ).getLast? = some 50 ∧
     1 < ([0, 50] : List ℚ).length ∧
     (Comprehensive.colCagr [0, 50] = none ↔ ¬((0 : ℚ) < 0 ∧ (0 : ℚ) < 50))) ∧
    (Thesis.cityGrowthEntry dfC4 "A" = some gC4 ∧
     ¬(0 < gC4.initial_employees ∧ 0 < gC4.final_employees) ∧
     gC4.employees_cagr = 0) :=
  ⟨⟨rfl, rfl, by norm_num, C4_cagr_omission.1 [0, 50] 0 50 rfl rfl (by norm_num)⟩,
   ⟨dfC4_entry, by decide,
    (C4_cagr_omission.2 dfC4 "A" gC4 dfC4_entry).2 (by decide)⟩⟩

/-- C10: a city with fewer than 3 observations gets no entry at all in
`identify_top_growth_cities`' `city_growth` nor in
`time_series_analysis`' `city_timeseries` — even when both endpoint
years are observed — and for included cities the annualization divisor
is the observation count minus one, not the span between the first and
last year. -/
theorem C10_min_observations :
    (∀ (df : List URow) (city : String), (cityRows df city).length < 3 →
      Thesis.cityGrowthEntry df city = none) ∧
    (∀ (df : List URow) (city : String), (cityRows df city).length < 3 →
      Comprehensive.cityTimeseriesEntry df city = none) ∧
    (∀ (df : List URow) (city : String) (g : Thesis.CityGrowth),
      Thesis.cityGrowthEntry df city = some g →
      g.data_points = (cityRows df city).length ∧
      g.establishments_cagr =
        round2 (cagr g.initial_establishments g.final_establishments
          (g.data_points - 1))) :=
  ⟨fun _ _ h => Thesis.cityGrowthEntry_short h,
   fun _ _ h => Comprehensive.cityTimeseriesEntry_short h,
   fun _ _ _ h => ⟨(Thesis.cityGrowthEntry_some h).1,
                   (Thesis.cityGrowthEntry_some h).2.1⟩⟩

/-- C10 witness: `dfC10` has observations at both endpoint years 2007
and 2021 but only 2 of them, so it is absent from both analyses; `dfC1`
(4 observations) is annualized over `4 - 1 = 3`. -/
theorem C10_min_observations_witness :
    ((cityRows dfC10 "X").length < 3 ∧
     Thesis.cityGrowthEntry dfC10 "X" = none ∧
     Comprehensive.cityTimeseriesEntry dfC10 "X" = none) ∧
    (Thesis.cityGrowthEntry dfC1 "A" = some gC1 ∧
     gC1.data_points = (cityRows dfC1 "A").length ∧
     gC1.establishments_cagr =
       round2 (cagr gC1.initial_establishments gC1.final_establishments
         (gC1.data_points - 1))) :=
  ⟨⟨by decide, C10_min_observations.1 dfC10 "X" (by decide),
    C10_min_observations.2.1 dfC10 "X" (by decide)⟩,
   ⟨dfC1_entry, (C10_min_observations.2.2 dfC1 "A" gC1 dfC1_entry).1,
    (C10_min_observations.2.2 dfC1 "A" gC1 dfC1_entry).2⟩⟩

/-- C3 (counterexample): the claim that `percent_change` is omitted
exactly when `start_value == 0` and that the division by zero is never
computed fails on `create_period_comparison_table` (`analysis.py` lines
62-72): the division is unconditional, so on a dataset whose 2007
establishments value is 0 the computation raises `ZeroDivisionError`
instead of producing a result with the field omitted. -/
theorem C3_counterexample :
    (Analysis.create_period_comparison_table dfZ).2 = .error "ZeroDivisionError" ∧
    dfZ.head?.map (fun r => r.get .establishments) = some 0 :=
  ⟨rfl, rfl⟩

/-- C3 (amended): `create_period_comparison_table` computes
`change_pct = (end_val - start_val) / start_val * 100` unconditionally
for every present pair of boundary rows; there is no `start_value == 0`
guard — a zero start value raises `ZeroDivisionError` (and the numpy
variant in `create_period_change_graph` coerces to `inf`) rather than
omitting the field. -/
theorem C3_percent_change :
    ∀ (sr er : Analysis.Rec) (m : Analysis.Metric),
      (sr.get m = 0 →
        Analysis.metricChange sr er m = .error "ZeroDivisionError") ∧
      (sr.get m ≠ 0 →
        Analysis.metricChange sr er m =
          .ok { start_val := sr.get m
                end_val := er.get m
                change_pct := (er.get m - sr.get m) / sr.get m * 100
                change_abs := er.get m - sr.get m }) := by
  intro sr er m
  constructor
  · intro h
    unfold Analysis.metricChange
    dsimp only
    rw [if_pos h]
  · intro h
    unfold Analysis.metricChange
    dsimp only
    rw [if_neg h]

/-- C3 witness: both branches evaluated on the rows of `dfZ`. -/
theorem C3_percent_change_witness :
    ((⟨"B", 2007, 0, 10, 10, 10, []⟩ : Analysis.Rec).get .establishments = 0 ∧
     Analysis.metricChange ⟨"B", 2007, 0, 10, 10, 10, []⟩
       ⟨"B", 2012, 200, 20, 20, 20, []⟩ .establishments =
       .error "ZeroDivisionError") ∧
    ((⟨"B", 2012, 200, 20, 20, 20, []⟩ : Analysis.Rec).get .establishments ≠ 0 ∧
     Analysis.metricChange ⟨"B", 2012, 200, 20, 20, 20, []⟩
       ⟨"B", 2007, 0, 10, 10, 10, []⟩ .establishments =
       .ok { start_val := 200, end_val := 0,
             change_pct := ((0 : ℚ) - 200) / 200 * 100, change_abs := (0 : ℚ) - 200 }) :=
  ⟨⟨rfl, (C3_percent_change ⟨"B", 2007, 0, 10, 10, 10, []⟩
      ⟨"B", 2012, 200, 20, 20, 20, []⟩ .establishments).1 rfl⟩,
   ⟨by decide, (C3_percent_change ⟨"B", 2012, 200, 20, 20, 20, []⟩
      ⟨"B", 2007, 0, 10, 10, 10, []⟩ .establishments).2 (by decide)⟩⟩

/-- C8 (counterexample): the claim that the input Dataset is unchanged
by the computation fails: `create_period_comparison_table` assigns a
`period` column to the input dataframe (`analysis.py` lines 39-41), so
the frame after the call differs from the frame before it. -/
theorem C8_counterexample :
    (Analysis.create_period_comparison_table dfOne).1 ≠ dfOne := by
  decide

/-- C8 (amended): the only mutation `create_period_comparison_table`
performs on the dataset is adding the derived `period` column
(`comprehensive_analysis.py`'s `efficiency_analysis` likewise adds an
`employees_per_establishment` column); every pre-existing field of every
row — city, year and the four metrics — is unchanged, and the computed
`period_stats` is a pure function of the input. -/
theorem C8_dataset_mutation :
    ∀ (df : List Analysis.Rec),
      (Analysis.create_period_comparison_table df).1 = Analysis.addPeriodColumn df ∧
      ((Analysis.create_period_comparison_table df).1).map
          (fun r => (r.city, r.year, r.establishments, r.employees, r.sales, r.salesArea)) =
        df.map (fun r => (r.city, r.year, r.establishments, r.employees, r.sales, r.salesArea)) ∧
      (Analysis.create_period_comparison_table df).2 = Analysis.periodStats df := by
  intro df
  refine ⟨rfl, ?_, rfl⟩
  show (Analysis.addPeriodColumn df).map _ = _
  rw [Analysis.addPeriodColumn, List.map_map]
  rfl

/-- C7: the growth-metrics computations are deterministic — two runs on
equal inputs give equal outputs; the embedded computations are pure
functions of the dataset and parameters (the run timestamp of the
surrounding scripts appears only in report headers, outside these
computations). -/
theorem C7_deterministic :
    (∀ (d1 d2 : List GrowthMetrics.Obs) (ms : List String) (ps : List (ℤ × ℤ)),
      d1 = d2 →
      GrowthMetrics.compute_all_periods d1 ms ps =
        GrowthMetrics.compute_all_periods d2 ms ps) ∧
    (∀ (df1 df2 : List Analysis.Rec), df1 = df2 →
      Analysis.create_period_comparison_table df1 =
        Analysis.create_period_comparison_table df2) :=
  ⟨fun _ _ _ _ h => by rw [h], fun _ _ h => by rw [h]⟩

/-- C7 witness: determinism evaluated on `obsD` and `dfZ`. -/
theorem C7_deterministic_witness :
    GrowthMetrics.compute_all_periods obsD ["establishments"] [(2007, 2012)] =
      GrowthMetrics.compute_all_periods obsD ["establishments"] [(2007, 2012)] ∧
    Analysis.create_period_comparison_table dfZ =
      Analysis.create_period_comparison_table dfZ :=
  ⟨C7_deterministic.1 obsD obsD ["establishments"] [(2007, 2012)] rfl,
   C7_deterministic.2 dfZ dfZ rfl⟩

/-- C6: calling the period-change computation with `y_start == y_end`
fails with `InvalidRangeError` for every dataset, city and metric; it
never returns a zero-change result. -/
theorem C6_invalid_range :
    ∀ (dataset : List GrowthMetrics.Obs) (city metric : String) (y : ℤ),
      GrowthMetrics.compute_period_change dataset city metric y y =
        .error (.invalidRange y y) := by
  intro dataset city metric y
  unfold GrowthMetrics.compute_period_change
  rw [if_neg (lt_irrefl y)]

/-- A concrete `GrowthResult` used to witness non-membership. -/
def g0 : GrowthMetrics.GrowthResult :=
  { start_value := 0, end_value := 0, absolute_change := 0,
    percent_change := none, cagr := none }

/-- C5: a missing (or null) endpoint observation makes
`compute_period_change` fail with a `MissingDataError` carrying the
missing `(city, year)` key; `compute_all_periods` leaves every such
combination out of the result mapping without crashing, and its returned
skip count is exactly the number of combinations failing with
`MissingDataError` — one per missing combination. -/
theorem C5_missing_data :
    (∀ (dataset : List GrowthMetrics.Obs) (city metric : String) (ys ye : ℤ),
      ys < ye → GrowthMetrics.lookupValue dataset city ys metric = none →
      GrowthMetrics.compute_period_change dataset city metric ys ye =
        .error (.missingData city ys)) ∧
    (∀ (dataset : List GrowthMetrics.Obs) (city metric : String) (ys ye : ℤ) (s : ℚ),
      ys < ye → GrowthMetrics.lookupValue dataset city ys metric = some s →
      GrowthMetrics.lookupValue dataset city ye metric = none →
      GrowthMetrics.compute_period_change dataset city metric ys ye =
        .error (.missingData city ye)) ∧
    (∀ (dataset : List GrowthMetrics.Obs) (ms : List String) (ps : List (ℤ × ℤ)),
      (GrowthMetrics.compute_all_periods dataset ms ps).2 =
        ((GrowthMetrics.combos dataset ms ps).filter
          (GrowthMetrics.isMissing dataset)).length) ∧
    (∀ (dataset : List GrowthMetrics.Obs) (ms : List String) (ps : List (ℤ × ℤ))
        (q : String × String × ℤ × ℤ) (g : GrowthMetrics.GrowthResult),
      GrowthMetrics.isMissing dataset q = true →
      (q, g) ∉ (GrowthMetrics.compute_all_periods dataset ms ps).1) := by
  refine ⟨?_, ?_, fun _ _ _ => rfl, ?_⟩
  · intro dataset city metric ys ye hlt hnone
    unfold GrowthMetrics.compute_period_change
    rw [if_pos hlt, hnone]
  · intro dataset city metric ys ye s hlt hs hnone
    unfold GrowthMetrics.compute_period_change
    rw [if_pos hlt, hs, hnone]
  · intro dataset ms ps q g hmiss hmem
    unfold GrowthMetrics.compute_all_periods at hmem
    dsimp only at hmem
    rw [List.mem_filterMap] at hmem
    obtain ⟨qr, hin, heq⟩ := hmem
    rw [List.mem_map] at hin
    obtain ⟨q', _, rfl⟩ := hin
    revert heq
    dsimp only
    cases hcpc : GrowthMetrics.compute_period_change dataset q'.1 q'.2.1 q'.2.2.1 q'.2.2.2 with
    | error e => intro heq; exact absurd heq (by simp)
    | ok g' =>
      intro heq
      rw [Option.some.injEq, Prod.mk.injEq] at heq
      obtain ⟨rfl, rfl⟩ := heq
      unfold GrowthMetrics.isMissing at hmiss
      rw [hcpc] at hmiss
      simp at hmiss

/-- C5 witness: on `obsD`, city `"D"` has no 2007 observation and city
`"C"` has no 2012 observation; the skip count equals the number of
`MissingDataError` combinations and the missing combination is absent
from the mapping. -/
theorem C5_missing_data_witness :
    ((2007 : ℤ) < 2012 ∧
     GrowthMetrics.lookupValue obsD "D" 2007 "establishments" = none ∧
     GrowthMetrics.compute_period_change obsD "D" "establishments" 2007 2012 =
       .error (.missingData "D" 2007)) ∧
    ((2007 : ℤ) < 2012 ∧
     GrowthMetrics.lookupValue obsD "C" 2007 "establishments" = some 50 ∧
     GrowthMetrics.lookupValue obsD "C" 2012 "establishments" = none ∧
     GrowthMetrics.compute_period_change obsD "C" "establishments" 2007 2012 =
       .error (.missingData "C" 2012)) ∧
    ((GrowthMetrics.compute_all_periods obsD ["establishments"] [(2007, 2012)]).2 =
      ((GrowthMetrics.combos obsD ["establishments"] [(2007, 2012)]).filter
        (GrowthMetrics.isMissing obsD)).length) ∧
    (GrowthMetrics.isMissing obsD ("C", "establishments", 2007, 2012) = true ∧
     (("C", "establishments", 2007, 2012), g0) ∉
       (GrowthMetrics.compute_all_periods obsD ["establishments"] [(2007, 2012)]).1) :=
  ⟨⟨by decide, rfl,
    C5_missing_data.1 obsD "D" "establishments" 2007 2012 (by decide) rfl⟩,
   ⟨by decide, rfl, rfl,
    C5_missing_data.2.1 obsD "C" "establishments" 2007 2012 50 (by decide) rfl rfl⟩,
   C5_missing_data.2.2.1 obsD ["establishments"] [(2007, 2012)],
   ⟨rfl, C5_missing_data.2.2.2 obsD ["establishments"] [(2007, 2012)]
     ("C", "establishments", 2007, 2012) g0 rfl⟩⟩

/-- C9: `create_time_series_chart`, `create_regional_comparison` and
`create_statistics_summary` all drop exactly the rows with
`year == 2014` through the hard-coded filter `df[df['year'] != 2014]`
(not a value-based outlier rule): every other row is retained, no yearly
average is produced for 2014, and for any other year the rows averaged
are exactly the original rows of that year. -/
theorem C9_year2014_filter :
    (∀ (df : List URow) (r : URow),
      r ∈ PresentationFigures.filtered2014 df ↔ r ∈ df ∧ r.year ≠ 2014) ∧
    (∀ (df : List URow) (y : ℤ) (a b : ℚ),
      (y, a, b) ∈ PresentationFigures.yearly_avg df → y ≠ 2014) ∧
    (∀ (df : List URow) (y : ℤ), y ≠ 2014 →
      (PresentationFigures.filtered2014 df).filter (fun r => r.year == y) =
        df.filter (fun r => r.year == y)) ∧
    (∀ (df : List URow) (r : URow),
      r ∈ PresentationFigures.regionalRows df ↔
        r ∈ df ∧ r.year ≠ 2014 ∧ r.region.isSome = true) ∧
    (∀ df : List URow,
      PresentationFigures.statsSummaryMean df =
        (PresentationFigures.meanQ
          ((PresentationFigures.filtered2014 df).map (·.establishments)),
         PresentationFigures.meanQ
          ((PresentationFigures.filtered2014 df).map (·.employees)))) := by
  refine ⟨?_, ?_, ?_, ?_, fun _ => rfl⟩
  · intro df r
    simp [PresentationFigures.filtered2014, List.mem_filter, bne_iff_ne]
  · intro df y a b h
    unfold PresentationFigures.yearly_avg at h
    rw [List.mem_map] at h
    obtain ⟨y', hy', heq⟩ := h
    have hyy : y' = y := congrArg Prod.fst heq
    subst hyy
    unfold PresentationFigures.yearKeys at hy'
    rw [List.mem_dedup, List.mem_map] at hy'
    obtain ⟨r, hr, hyr⟩ := hy'
    unfold PresentationFigures.filtered2014 at hr
    rw [List.mem_filter] at hr
    rw [← hyr]
    exact bne_iff_ne.mp hr.2
  · intro df y hy
    unfold PresentationFigures.filtered2014
    rw [List.filter_filter]
    have hfun : (fun r : URow => (r.year == y) && (r.year != 2014)) =
        (fun r : URow => r.year == y) := by
      funext r
      by_cases hr : r.year = y
      · simp [hr, bne_iff_ne, hy]
      · simp [hr]
    rw [hfun]
  · intro df r
    simp only [PresentationFigures.regionalRows, PresentationFigures.filtered2014,
      List.mem_filter, bne_iff_ne]
    tauto

/-- C9 witness: on `df9` (one 2012 row, one 2014 row) the yearly
averages contain the 2012 entry only, and for year 2012 the averaged
rows coincide with the unfiltered 2012 rows. -/
theorem C9_year2014_filter_witness :
    ((2012, (10 : ℚ), (20 : ℚ)) ∈ PresentationFigures.yearly_avg df9 ∧
     (2012 : ℤ) ≠ 2014) ∧
    ((2012 : ℤ) ≠ 2014 ∧
     (PresentationFigures.filtered2014 df9).filter (fun r => r.year == 2012) =
       df9.filter (fun r => r.year == 2012)) := by
  have h1 : PresentationFigures.meanQ [10] = 10 := by
    norm_num [PresentationFigures.meanQ]
  have h2 : PresentationFigures.meanQ [20] = 20 := by
    norm_num [PresentationFigures.meanQ]
  have h : PresentationFigures.yearly_avg df9 =
      [(2012, PresentationFigures.meanQ [10], PresentationFigures.meanQ [20])] := rfl
  have hmem : ((2012 : ℤ), (10 : ℚ), (20 : ℚ)) ∈ PresentationFigures.yearly_avg df9 := by
    rw [h, h1, h2]
    simp
  exact ⟨⟨hmem, C9_year2014_filter.2.1 df9 2012 10 20 hmem⟩,
    ⟨by decide, C9_year2014_filter.2.2.1 df9 2012 (by decide)⟩⟩
